import Mathlib

/-
Shallow embedding of the mcoffin/vk-playground repository (Rust).

Files embedded:
  * src/vk_mem.rs       : the `VkOwned` scoped native-handle wrapper
                          (Drop, Deref).
  * src/main.rs         : `Bounded::bounded`, `SwapChainSupportDetails`
                          (`new`, `choose_format`, `choose_swap_extent`),
                          `triple_buffer_image_count`, `update_sharing_mode`,
                          the device / queue-family selection inside `main`,
                          `read_full_file` and the shader-module path.

Machine integers (`u32`) are modelled as `Nat`; none of the verified claims
depends on wrap-around behaviour.  A Rust `panic!` / failed `assert!` is
modelled as `Option.none` (no value is returned).  Fallible driver queries
(`VkResult`) are modelled as `Except Nat` with an opaque numeric error code.
-/

namespace VkPlayground

/-! ## vk_mem.rs : `VkOwned`

```rust
pub struct VkOwned<A: Copy, F: Fn(A)> { value: A, destroy_fn: F }
impl ... Drop  { fn drop(&mut self) { (self.destroy_fn)(self.value) } }
impl ... Deref { fn deref(&self) -> &A { &self.value } }
```

The destructor closure is abstracted by recording, for every operation, the
list of destructor invocations (each entry is the argument the closure was
called with).  `deref` performs none; `drop` performs exactly the single call
written in its body. -/

structure VkOwned (A : Type) where
  value : A

/-- `VkOwned::new(a, destroy_fn)`: stores the value (the closure is tracked
separately via the invocation lists below). -/
def VkOwned.new {A : Type} (a : A) : VkOwned A := ⟨a⟩

/-- `Deref::deref`: `&self.value` — a pure read, no destructor call. -/
def VkOwned.deref {A : Type} (h : VkOwned A) : A := h.value

/-- `Drop::drop`: `(self.destroy_fn)(self.value)` — the destructor
invocations performed, in order, each recording its argument. -/
def VkOwned.dropCalls {A : Type} (h : VkOwned A) : List A := [h.value]

/-- Observable events of a wrapper lifecycle: a read through `deref`, or a
destructor invocation. -/
inductive VkEvent (A : Type) where
  | read : A → VkEvent A
  | destroy : A → VkEvent A
  deriving DecidableEq

def isDestroyEvent {A : Type} : VkEvent A → Bool
  | .destroy _ => true
  | .read _ => false

/-- The event trace of: construct a `VkOwned` over `a`, dereference it `n`
times, then let it go out of scope (Rust runs `Drop::drop` once there). -/
def lifecycleTrace {A : Type} (a : A) (n : Nat) : List (VkEvent A) :=
  let h : VkOwned A := VkOwned.new a
  List.replicate n (VkEvent.read h.deref) ++ h.dropCalls.map VkEvent.destroy

/-! ## main.rs : `Bounded::bounded`

```rust
fn bounded<'a>(&'a self, min: &'a T, max: &'a T) -> &'a T {
    assert!(min < max);
    if self < min { min } else if self > max { max } else { self }
}
```

The failed assertion (a panic) is `none`. -/

def bounded (x mn mx : Nat) : Option Nat :=
  if mn < mx then
    some (if x < mn then mn else if mx < x then mx else x)
  else
    none

/-! ## main.rs : capability data -/

structure Extent2D where
  width : Nat
  height : Nat
  deriving DecidableEq

/-- The fields of `vk::types::SurfaceCapabilitiesKHR` that the program
reads (the remaining fields — transforms, usage flags, … — are passed
through untouched and are omitted). -/
structure SurfaceCapabilitiesKHR where
  min_image_count : Nat
  max_image_count : Nat
  current_extent : Extent2D
  min_image_extent : Extent2D
  max_image_extent : Extent2D
  deriving DecidableEq

inductive Format where
  | Undefined
  | R8g8b8a8Unorm
  | Other : Nat → Format
  deriving DecidableEq

inductive ColorSpaceKHR where
  | SrgbNonlinear
  | Other : Nat → ColorSpaceKHR
  deriving DecidableEq

structure SurfaceFormatKHR where
  format : Format
  color_space : ColorSpaceKHR
  deriving DecidableEq

/-- `static PREFERRED_FORMAT` : `R8g8b8a8Unorm` / `SrgbNonlinear`. -/
def PREFERRED_FORMAT : SurfaceFormatKHR :=
  { format := Format.R8g8b8a8Unorm, color_space := ColorSpaceKHR.SrgbNonlinear }

/-- Present modes are an ordered enum; only their numeric rank matters here. -/
def PresentModeKHR : Type := Nat

structure SwapChainSupportDetails where
  capabilities : SurfaceCapabilitiesKHR
  formats : List SurfaceFormatKHR
  present_modes : List Nat
  deriving DecidableEq

/-- `SwapChainSupportDetails::new`: three driver queries chained with `try!`
(each propagates its error immediately).  The queries themselves are external
driver calls; they enter the model as the three `Except` arguments. -/
def surface_support_query (qcaps : Except Nat SurfaceCapabilitiesKHR)
    (qformats : Except Nat (List SurfaceFormatKHR))
    (qmodes : Except Nat (List Nat)) : Except Nat SwapChainSupportDetails :=
  match qcaps with
  | .error e => .error e
  | .ok capabilities =>
    match qformats with
    | .error e => .error e
    | .ok formats =>
      match qmodes with
      | .error e => .error e
      | .ok present_modes => .ok ⟨capabilities, formats, present_modes⟩

/-- The scrutinee of `choose_format`'s first branch:
`self.formats.len() == 1 && self.formats[0].format == Format::Undefined`. -/
def isSingleUndefined (formats : List SurfaceFormatKHR) : Prop :=
  formats.length = 1 ∧ (formats.get? 0).map (fun f => f.format) = some Format.Undefined

instance (formats : List SurfaceFormatKHR) : Decidable (isSingleUndefined formats) :=
  inferInstanceAs (Decidable (_ ∧ _))

/-- The predicate of `choose_format`'s `find`:
`f.format == PREFERRED_FORMAT.format && f.color_space == PREFERRED_FORMAT.color_space`. -/
def matchesPreferred (f : SurfaceFormatKHR) : Bool :=
  decide (f.format = PREFERRED_FORMAT.format) &&
    decide (f.color_space = PREFERRED_FORMAT.color_space)

/-- `SwapChainSupportDetails::choose_format` (it returns
`Option<&SurfaceFormatKHR>`; `None` only when nothing is found). -/
def choose_format (formats : List SurfaceFormatKHR) : Option SurfaceFormatKHR :=
  if isSingleUndefined formats then
    some PREFERRED_FORMAT
  else
    (formats.find? matchesPreferred).orElse (fun _ => formats.head?)

def U32_MAX : Nat := 4294967295

/-- `SwapChainSupportDetails::choose_swap_extent`.  The sentinel test in the
source is `self.capabilities.current_extent.width != std::u32::MAX` (width
only).  The window-size hint is the pair returned by `window.get_size()`.
A failed `bounded` assertion propagates as `none` (panic). -/
def choose_swap_extent (caps : SurfaceCapabilitiesKHR) (hint : Nat × Nat) :
    Option Extent2D :=
  if caps.current_extent.width ≠ U32_MAX then
    some caps.current_extent
  else
    match bounded hint.1 caps.min_image_extent.width caps.max_image_extent.width,
          bounded hint.2 caps.min_image_extent.height caps.max_image_extent.height with
    | some w, some h => some ⟨w, h⟩
    | _, _ => none

/-- `triple_buffer_image_count`:
```rust
let image_count = capabilities.min_image_count + 1;
if capabilities.max_image_count > 0 {
    *image_count.bounded(&capabilities.min_image_count, &capabilities.max_image_count)
} else { image_count }
``` -/
def triple_buffer_image_count (caps : SurfaceCapabilitiesKHR) : Option Nat :=
  let image_count := caps.min_image_count + 1
  if 0 < caps.max_image_count then
    bounded image_count caps.min_image_count caps.max_image_count
  else
    some image_count

/-! ## main.rs : sharing mode -/

inductive SharingMode where
  | Exclusive
  | Concurrent
  deriving DecidableEq

/-- The two fields of `SwapchainCreateInfoKHR` involved in the sharing-mode
choice (`queue_family_index_count` / `p_queue_family_indices` are the length
and contents of the list). -/
structure SwapchainSharingInfo where
  image_sharing_mode : SharingMode
  queue_family_indices : List Nat
  deriving DecidableEq

/-- `update_sharing_mode`: `Concurrent` iff `queue_family_index_count > 1`. -/
def update_sharing_mode (ci : SwapchainSharingInfo) : SwapchainSharingInfo :=
  { ci with
    image_sharing_mode :=
      if 1 < ci.queue_family_indices.length then SharingMode.Concurrent
      else SharingMode.Exclusive }

/-- `[graphics_family_idx, presentation_family_idx]` collected into a
`BTreeSet<u32>` and back into a `Vec<u32>`: sorted, de-duplicated. -/
def dedup_queue_family_indices (g p : Nat) : List Nat :=
  if g = p then [g] else if g < p then [g, p] else [p, g]

/-- The swapchain `create_info` fragment built in `main` (initial mode
`Exclusive`, the de-duplicated index list) followed by
`update_sharing_mode(&mut create_info)`. -/
def swapchain_sharing (g p : Nat) : SwapchainSharingInfo :=
  update_sharing_mode
    { image_sharing_mode := SharingMode.Exclusive
      queue_family_indices := dedup_queue_family_indices g p }

/-! ## main.rs : device / queue-family selection -/

/-- The fields of `vk::types::QueueFamilyProperties` read during selection:
`queue_count` and whether `queue_flags.subset(QUEUE_GRAPHICS_BIT)`. -/
structure QueueFamilyProperties where
  queue_count : Nat
  supports_graphics : Bool
  deriving DecidableEq

/-- One enumerated physical device, as seen by the selection code:
its queue-family list and, per index, the result of
`get_physical_device_surface_support_khr(dev, idx, surface)`. -/
structure PhysicalDevice where
  queue_families : List QueueFamilyProperties
  present_support : List Bool
  deriving DecidableEq

/-- `gfx_families`: indices `idx < queue_families.len()` whose family has
`queue_count > 0 && queue_flags.subset(QUEUE_GRAPHICS_BIT)`.  The source
pairs each family with its index via `iter().zip(0..n)` and keeps the index;
filtering `range n` on the indexed lookup is the same set.  `BTreeSet<usize>`
iterates in ascending order, which the filtered `range` already is. -/
def gfx_families (d : PhysicalDevice) : List Nat :=
  (List.range d.queue_families.length).filter (fun i =>
    ((d.queue_families.get? i).map
      (fun q => decide (0 < q.queue_count) && q.supports_graphics)).getD false)

/-- `presentation_families`: indices `idx < queue_families.len()` with
surface support. -/
def presentation_families (d : PhysicalDevice) : List Nat :=
  (List.range d.queue_families.length).filter (fun i =>
    d.present_support.getD i false)

/-- `gfx_families.intersection(&presentation_families)` as an ascending
list (a `BTreeSet` intersection iterates in ascending order). -/
def combined_families (d : PhysicalDevice) : List Nat :=
  (gfx_families d).filter (fun i => decide (i ∈ presentation_families d))

/-- The per-device body of the selection `flat_map`:
`intersection.next()` gives a combined family used for both roles, otherwise
the smallest graphics and presentation indices are taken independently
(`iter().next()` on each `BTreeSet`), and `None` disqualifies the device if
either set is empty. -/
def select_queue_families (d : PhysicalDevice) : Option (Nat × Nat) :=
  match (combined_families d).head? with
  | some family => some (family, family)
  | none =>
    match (gfx_families d).head?, (presentation_families d).head? with
    | some g, some p => some (g, p)
    | _, _ => none

/-! ## main.rs : `read_full_file` and the shader-module path -/

/-- `read_full_file`: `File::open` (propagated with `try!`), a metadata
query used only to size the initial buffer (its error is merely logged), and
`read_to_end` (propagated with `try!`), returning the bytes read. -/
def read_full_file (openResult : Except Nat Unit)
    (metadataLen : Except Nat Nat)
    (readResult : Except Nat (List Nat)) : Except Nat (List Nat) :=
  match openResult with
  | .error e => .error e
  | .ok _ =>
    let _capacity : Nat :=
      match metadataLen with
      | .ok len => len
      | .error _ => 0
    match readResult with
    | .error e => .error e
    | .ok buf => .ok buf

/-- The two fields of `ShaderModuleCreateInfo` derived from the byte
buffer: `code_size: code.len()` and `p_code` (the bytes). -/
structure ShaderModuleCreateInfo where
  code_size : Nat
  code : List Nat
  deriving DecidableEq

/-- The closure `create_shader_module` in `main`: builds the create info
from the bytes unconditionally (no emptiness check anywhere). -/
def shader_module_create_info (code : List Nat) : ShaderModuleCreateInfo :=
  { code_size := code.length, code := code }

/-- `create_shader_module(read_full_file(path).unwrap())`: `unwrap` panics
(`none`) on a read error; otherwise the bytes are handed to shader-module
creation as-is. -/
def shader_module_from_read (r : Except Nat (List Nat)) :
    Option ShaderModuleCreateInfo :=
  match r with
  | .ok code => some (shader_module_create_info code)
  | .error _ => none

/-! ## Helper lemmas -/

/-- A replicated list of read events contains no destroy event. -/
theorem countP_destroy_replicate {A : Type} (a : A) :
    ∀ m : Nat, (List.replicate m (VkEvent.read a)).countP isDestroyEvent = 0 := by
  intro m
  induction m with
  | zero => rfl
  | succ k ih =>
    rw [List.replicate_succ, List.countP_cons]
    simp [isDestroyEvent, ih]

/-- Behaviour of `bounded` under the assertion's precondition `min < max`. -/
theorem bounded_pos_aux (x mn mx : Nat) (h : mn < mx) :
    ∃ r, bounded x mn mx = some r ∧ mn ≤ r ∧ r ≤ mx ∧
      (x < mn → r = mn) ∧ (mx < x → r = mx) ∧ (mn ≤ x → x ≤ mx → r = x) := by
  unfold bounded
  rw [if_pos h]
  refine ⟨_, rfl, ?_⟩
  split_ifs <;> omega

/-- When `min ≥ max` the assertion in `bounded` fails: no value is returned. -/
theorem bounded_neg_aux (x mn mx : Nat) (h : mx ≤ mn) : bounded x mn mx = none := by
  unfold bounded
  rw [if_neg (by omega)]

/-- The head of a strictly ascending list is its minimum. -/
theorem head_min_of_pairwise_lt {l : List Nat} {a : Nat}
    (hp : (a :: l).Pairwise (fun x y => x < y)) : ∀ i ∈ a :: l, a ≤ i := by
  intro i hi
  rcases List.mem_cons.mp hi with h | h
  · exact h ▸ Nat.le_refl a
  · exact Nat.le_of_lt ((List.pairwise_cons.mp hp).1 i h)

theorem gfx_families_pairwise (d : PhysicalDevice) :
    (gfx_families d).Pairwise (· < ·) :=
  (List.pairwise_lt_range _).filter _

theorem presentation_families_pairwise (d : PhysicalDevice) :
    (presentation_families d).Pairwise (· < ·) :=
  (List.pairwise_lt_range _).filter _

theorem combined_families_pairwise (d : PhysicalDevice) :
    (combined_families d).Pairwise (· < ·) :=
  (gfx_families_pairwise d).filter _

/-- Membership in the modelled `BTreeSet` intersection. -/
theorem mem_combined_families (d : PhysicalDevice) (i : Nat) :
    i ∈ combined_families d ↔ i ∈ gfx_families d ∧ i ∈ presentation_families d := by
  unfold combined_families
  rw [List.mem_filter]
  simp

/-- Under disjointness the modelled intersection is empty. -/
theorem combined_families_eq_nil (d : PhysicalDevice)
    (hdisj : ∀ i ∈ gfx_families d, i ∉ presentation_families d) :
    combined_families d = [] := by
  unfold combined_families
  rw [List.filter_eq_nil_iff]
  intro i hi
  simp [hdisj i hi]

/-- `find?` returns the first match of a decomposed list. -/
theorem find?_first_match {α : Type} (p : α → Bool) (l1 : List α) (f : α)
    (l2 : List α) (hf : p f = true) (h1 : ∀ g ∈ l1, p g = false) :
    (l1 ++ f :: l2).find? p = some f := by
  induction l1 with
  | nil => rw [List.nil_append]; exact List.find?_cons_of_pos _ hf
  | cons a t ih =>
    have ha : p a = false := h1 a (List.mem_cons_self a t)
    rw [List.cons_append, List.find?_cons_of_neg _ (by simp [ha])]
    exact ih (fun g hg => h1 g (List.mem_cons_of_mem a hg))

/-- The code's single-undefined test, in spec vocabulary. -/
theorem isSingleUndefined_iff (formats : List SurfaceFormatKHR) :
    isSingleUndefined formats ↔
      ∃ f, formats = [f] ∧ f.format = Format.Undefined := by
  unfold isSingleUndefined
  cases formats with
  | nil => simp
  | cons a t =>
    cases t with
    | nil =>
      constructor
      · rintro ⟨-, h⟩
        exact ⟨a, rfl, by simpa using h⟩
      · rintro ⟨f, hf, hu⟩
        cases hf
        exact ⟨rfl, by simpa using hu⟩
    | cons b t2 =>
      constructor
      · rintro ⟨h, -⟩
        simp [List.length_cons] at h
      · rintro ⟨f, hf, -⟩
        cases hf

/-! ## Claims -/

/-- C1: constructing a `VkOwned` over a value, dereferencing it `n` times
and then dropping it invokes the destructor exactly once, with the wrapped
value, at the very end of the trace — never before the drop. -/
theorem vkowned_destructor_once {A : Type} (a : A) (n : Nat) :
    lifecycleTrace a n = List.replicate n (VkEvent.read a) ++ [VkEvent.destroy a]
    ∧ (lifecycleTrace a n).countP isDestroyEvent = 1
    ∧ ∀ e ∈ (lifecycleTrace a n).dropLast, isDestroyEvent e = false := by
  have htrace : lifecycleTrace a n
      = List.replicate n (VkEvent.read a) ++ [VkEvent.destroy a] := rfl
  refine ⟨htrace, ?_, ?_⟩
  · rw [htrace, List.countP_append, countP_destroy_replicate]
    rfl
  · intro e he
    rw [htrace] at he
    have : (List.replicate n (VkEvent.read a) ++ [VkEvent.destroy a]).dropLast
        = List.replicate n (VkEvent.read a) := by simp
    rw [this] at he
    rw [List.eq_of_mem_replicate he]
    rfl

/-- Closed witness for C1 at a concrete value and read count. -/
theorem vkowned_destructor_once_witness :
    (lifecycleTrace (37 : Nat) 2).countP isDestroyEvent = 1
    ∧ isDestroyEvent (VkEvent.read (37 : Nat)) = false :=
  ⟨(vkowned_destructor_once 37 2).2.1,
   (vkowned_destructor_once 37 2).2.2 (VkEvent.read 37) (by decide)⟩

/-- C10: `bounded` is total exactly under the asserted precondition
`min < max`, in which case it clamps into `[min, max]` (returning `min`
below, `max` above, and the input inside the range); with `min ≥ max` the
assertion fails and nothing is returned. -/
theorem bounded_spec (x mn mx : Nat) :
    (mn < mx →
      ∃ r, bounded x mn mx = some r ∧ mn ≤ r ∧ r ≤ mx ∧
        (x < mn → r = mn) ∧ (mx < x → r = mx) ∧ (mn ≤ x → x ≤ mx → r = x))
    ∧ (mx ≤ mn → bounded x mn mx = none) :=
  ⟨bounded_pos_aux x mn mx, bounded_neg_aux x mn mx⟩

/-- Closed witness for C10: one in-range clamp and one failed assertion. -/
theorem bounded_spec_witness :
    (∃ r, bounded 5 2 7 = some r ∧ 2 ≤ r ∧ r ≤ 7 ∧
       (5 < 2 → r = 2) ∧ (7 < 5 → r = 7) ∧ (2 ≤ 5 → 5 ≤ 7 → r = 5))
    ∧ bounded 3 4 4 = none :=
  ⟨(bounded_spec 5 2 7).1 (by decide), (bounded_spec 3 4 4).2 (by decide)⟩

/-- C3 counterexample: a snapshot with `min_image_count = max_image_count = 2`
(`max_image_count > 0`) makes `triple_buffer_image_count` fail the
`bounded` assertion and panic instead of returning a value in `[2, 2]`. -/
theorem triple_buffer_counterexample :
    triple_buffer_image_count ⟨2, 2, ⟨0, 0⟩, ⟨0, 0⟩, ⟨0, 0⟩⟩ = none := rfl

/-- C3 (amended): with `max_image_count = 0` the count is exactly
`min_image_count + 1`; with `0 < max_image_count` the result lies in
`[min_image_count, max_image_count]` provided `min_image_count <
max_image_count`, and the `bounded` assertion panics when `min_image_count ≥
max_image_count`; concretely min=2/max=3 gives 3 and min=1/max=0 gives 2. -/
theorem triple_buffer_spec (caps : SurfaceCapabilitiesKHR) :
    (caps.max_image_count = 0 →
      triple_buffer_image_count caps = some (caps.min_image_count + 1))
    ∧ (0 < caps.max_image_count → caps.min_image_count < caps.max_image_count →
      ∃ r, triple_buffer_image_count caps = some r
        ∧ caps.min_image_count ≤ r ∧ r ≤ caps.max_image_count)
    ∧ (0 < caps.max_image_count → caps.max_image_count ≤ caps.min_image_count →
      triple_buffer_image_count caps = none)
    ∧ triple_buffer_image_count ⟨2, 3, ⟨0, 0⟩, ⟨0, 0⟩, ⟨0, 0⟩⟩ = some 3
    ∧ triple_buffer_image_count ⟨1, 0, ⟨0, 0⟩, ⟨0, 0⟩, ⟨0, 0⟩⟩ = some 2 := by
  refine ⟨?_, ?_, ?_, rfl, rfl⟩
  · intro h
    unfold triple_buffer_image_count
    rw [if_neg (by omega)]
  · intro h1 h2
    unfold triple_buffer_image_count
    rw [if_pos h1]
    obtain ⟨r, hr, hlo, hhi, -⟩ := bounded_pos_aux (caps.min_image_count + 1)
      caps.min_image_count caps.max_image_count h2
    exact ⟨r, hr, hlo, hhi⟩
  · intro h1 h2
    unfold triple_buffer_image_count
    rw [if_pos h1]
    exact bounded_neg_aux _ _ _ h2

/-- Closed witness for C3's amended theorem. -/
theorem triple_buffer_spec_witness :
    triple_buffer_image_count ⟨1, 0, ⟨0, 0⟩, ⟨0, 0⟩, ⟨0, 0⟩⟩ = some (1 + 1)
    ∧ ∃ r, triple_buffer_image_count ⟨2, 3, ⟨0, 0⟩, ⟨0, 0⟩, ⟨0, 0⟩⟩ = some r
        ∧ 2 ≤ r ∧ r ≤ 3 :=
  ⟨(triple_buffer_spec ⟨1, 0, ⟨0, 0⟩, ⟨0, 0⟩, ⟨0, 0⟩⟩).1 rfl,
   (triple_buffer_spec ⟨2, 3, ⟨0, 0⟩, ⟨0, 0⟩, ⟨0, 0⟩⟩).2.1 (by decide) (by decide)⟩

/-- C4 counterexample: with the sentinel current extent and a degenerate
allowed range (`min_image_extent = max_image_extent = 100×100`), the hint is
not clamped — the `bounded` assertion fails and nothing is returned. -/
theorem choose_swap_extent_counterexample :
    choose_swap_extent ⟨1, 0, ⟨4294967295, 720⟩, ⟨100, 100⟩, ⟨100, 100⟩⟩ (5, 5)
      = none := by decide

/-- C4 (amended): a non-sentinel current extent is returned verbatim; with
the sentinel current extent and a componentwise non-degenerate range
(`min_image_extent < max_image_extent`), every hint is clamped componentwise
into `[min_image_extent, max_image_extent]`; if either component range is
degenerate the `bounded` assertion panics and no extent is produced. -/
theorem choose_swap_extent_spec (caps : SurfaceCapabilitiesKHR) (hint : Nat × Nat) :
    (caps.current_extent.width ≠ U32_MAX →
      choose_swap_extent caps hint = some caps.current_extent)
    ∧ (caps.current_extent.width = U32_MAX →
      caps.min_image_extent.width < caps.max_image_extent.width →
      caps.min_image_extent.height < caps.max_image_extent.height →
      ∃ e, choose_swap_extent caps hint = some e
        ∧ caps.min_image_extent.width ≤ e.width
        ∧ e.width ≤ caps.max_image_extent.width
        ∧ caps.min_image_extent.height ≤ e.height
        ∧ e.height ≤ caps.max_image_extent.height)
    ∧ (caps.current_extent.width = U32_MAX →
      (caps.max_image_extent.width ≤ caps.min_image_extent.width ∨
       caps.max_image_extent.height ≤ caps.min_image_extent.height) →
      choose_swap_extent caps hint = none) := by
  refine ⟨?_, ?_, ?_⟩
  · intro h
    unfold choose_swap_extent
    rw [if_pos h]
  · intro h hw hh
    unfold choose_swap_extent
    rw [if_neg (fun hne => hne h)]
    obtain ⟨w, hwb, hw1, hw2, -⟩ := bounded_pos_aux hint.1
      caps.min_image_extent.width caps.max_image_extent.width hw
    obtain ⟨v, hvb, hv1, hv2, -⟩ := bounded_pos_aux hint.2
      caps.min_image_extent.height caps.max_image_extent.height hh
    rw [hwb, hvb]
    exact ⟨⟨w, v⟩, rfl, hw1, hw2, hv1, hv2⟩
  · intro h hdeg
    unfold choose_swap_extent
    rw [if_neg (fun hne => hne h)]
    rcases hdeg with hdw | hdh
    · rw [bounded_neg_aux _ _ _ hdw]
    · rw [bounded_neg_aux _ _ _ hdh]
      cases bounded hint.1 caps.min_image_extent.width caps.max_image_extent.width <;> rfl

/-- Closed witness for C4's amended theorem: a verbatim fixed extent, a
clamped hint, and a degenerate-range panic. -/
theorem choose_swap_extent_spec_witness :
    choose_swap_extent ⟨1, 0, ⟨1280, 720⟩, ⟨1, 1⟩, ⟨2048, 2048⟩⟩ (5, 5)
      = some ⟨1280, 720⟩
    ∧ (∃ e, choose_swap_extent ⟨1, 0, ⟨4294967295, 720⟩, ⟨10, 10⟩, ⟨20, 20⟩⟩ (5, 99)
        = some e ∧ 10 ≤ e.width ∧ e.width ≤ 20 ∧ 10 ≤ e.height ∧ e.height ≤ 20)
    ∧ choose_swap_extent ⟨1, 0, ⟨4294967295, 720⟩, ⟨10, 10⟩, ⟨20, 10⟩⟩ (5, 99)
        = none :=
  ⟨(choose_swap_extent_spec ⟨1, 0, ⟨1280, 720⟩, ⟨1, 1⟩, ⟨2048, 2048⟩⟩ (5, 5)).1
     (by decide),
   (choose_swap_extent_spec ⟨1, 0, ⟨4294967295, 720⟩, ⟨10, 10⟩, ⟨20, 20⟩⟩ (5, 99)).2.1
     (by decide) (by decide) (by decide),
   (choose_swap_extent_spec ⟨1, 0, ⟨4294967295, 720⟩, ⟨10, 10⟩, ⟨20, 10⟩⟩ (5, 99)).2.2
     (by decide) (Or.inr (by decide))⟩

/-- C5: a single-entry format list whose entry has the `Undefined` sentinel
format yields the fixed preferred format (any colour space); otherwise the
first entry exactly matching the preferred format and colour space is
returned, falling back to the first listed format when none matches; the
result is `none` exactly when the format list is empty. -/
theorem choose_format_spec (formats : List SurfaceFormatKHR) :
    ((∃ f, formats = [f] ∧ f.format = Format.Undefined) →
      choose_format formats = some PREFERRED_FORMAT)
    ∧ (¬ (∃ f, formats = [f] ∧ f.format = Format.Undefined) →
      (∀ l1 f l2, formats = l1 ++ f :: l2 → matchesPreferred f = true →
        (∀ g ∈ l1, matchesPreferred g = false) →
        choose_format formats = some f)
      ∧ ((∀ f ∈ formats, matchesPreferred f = false) →
        choose_format formats = formats.head?))
    ∧ (choose_format formats = none ↔ formats = []) := by
  refine ⟨?_, ?_, ?_⟩
  · intro h
    unfold choose_format
    rw [if_pos ((isSingleUndefined_iff formats).mpr h)]
  · intro h
    have hnot : ¬ isSingleUndefined formats :=
      fun hs => h ((isSingleUndefined_iff formats).mp hs)
    constructor
    · intro l1 f l2 heq hf h1
      unfold choose_format
      rw [if_neg hnot, heq, find?_first_match _ _ _ _ hf h1]
      rfl
    · intro hall
      unfold choose_format
      rw [if_neg hnot, List.find?_eq_none.mpr (fun x hx => by simp [hall x hx])]
      rfl
  · cases formats with
    | nil => simp [choose_format, isSingleUndefined]
    | cons a t =>
      constructor
      · intro hnone
        exfalso
        unfold choose_format at hnone
        by_cases hs : isSingleUndefined (a :: t)
        · rw [if_pos hs] at hnone
          cases hnone
        · rw [if_neg hs] at hnone
          cases hfind : (a :: t).find? matchesPreferred with
          | some f =>
            rw [hfind] at hnone
            simp at hnone
          | none =>
            rw [hfind] at hnone
            simp at hnone
      · intro habs
        cases habs

/-- Closed witness for C5: the single-undefined case, a first-exact-match
case, a fallback-to-first case, and the empty-list failure. -/
theorem choose_format_spec_witness :
    choose_format [⟨Format.Undefined, ColorSpaceKHR.Other 5⟩] = some PREFERRED_FORMAT
    ∧ choose_format [⟨Format.Other 1, ColorSpaceKHR.SrgbNonlinear⟩,
        ⟨Format.R8g8b8a8Unorm, ColorSpaceKHR.SrgbNonlinear⟩]
      = some ⟨Format.R8g8b8a8Unorm, ColorSpaceKHR.SrgbNonlinear⟩
    ∧ choose_format [⟨Format.Other 1, ColorSpaceKHR.SrgbNonlinear⟩,
        ⟨Format.Other 2, ColorSpaceKHR.Other 0⟩]
      = some ⟨Format.Other 1, ColorSpaceKHR.SrgbNonlinear⟩
    ∧ (choose_format [] = none ↔ ([] : List SurfaceFormatKHR) = []) :=
  ⟨(choose_format_spec [⟨Format.Undefined, ColorSpaceKHR.Other 5⟩]).1
     ⟨⟨Format.Undefined, ColorSpaceKHR.Other 5⟩, rfl, rfl⟩,
   ((choose_format_spec [⟨Format.Other 1, ColorSpaceKHR.SrgbNonlinear⟩,
        ⟨Format.R8g8b8a8Unorm, ColorSpaceKHR.SrgbNonlinear⟩]).2.1
     (by rintro ⟨f, hf, -⟩ ; cases hf)).1
     [⟨Format.Other 1, ColorSpaceKHR.SrgbNonlinear⟩]
     ⟨Format.R8g8b8a8Unorm, ColorSpaceKHR.SrgbNonlinear⟩ [] rfl (by decide)
     (by decide),
   ((choose_format_spec [⟨Format.Other 1, ColorSpaceKHR.SrgbNonlinear⟩,
        ⟨Format.Other 2, ColorSpaceKHR.Other 0⟩]).2.1
     (by rintro ⟨f, hf, -⟩ ; cases hf)).2 (by decide),
   (choose_format_spec []).2.2⟩

/-- C2: whenever the graphics-capable and presentation-capable index sets
intersect, the selector returns the smallest index of the intersection as
both the graphics and the presentation assignment — never a split pair. -/
theorem select_combined_family (d : PhysicalDevice)
    (h : ∃ i, i ∈ gfx_families d ∧ i ∈ presentation_families d) :
    ∃ m, select_queue_families d = some (m, m)
      ∧ m ∈ gfx_families d ∧ m ∈ presentation_families d
      ∧ ∀ i, i ∈ gfx_families d → i ∈ presentation_families d → m ≤ i := by
  obtain ⟨i, hig, hip⟩ := h
  have hic : i ∈ combined_families d := (mem_combined_families d i).mpr ⟨hig, hip⟩
  cases hc : combined_families d with
  | nil => rw [hc] at hic; cases hic
  | cons m t =>
    have hmc : m ∈ combined_families d := by
      rw [hc]; exact List.mem_cons_self m t
    refine ⟨m, ?_, ((mem_combined_families d m).mp hmc).1,
      ((mem_combined_families d m).mp hmc).2, ?_⟩
    · unfold select_queue_families
      rw [hc]
      rfl
    · intro j hjg hjp
      have hjc : j ∈ combined_families d := (mem_combined_families d j).mpr ⟨hjg, hjp⟩
      have hp := combined_families_pairwise d
      rw [hc] at hp hjc
      exact head_min_of_pairwise_lt hp j hjc

/-- Closed witness for C2: one queue family that is both graphics- and
presentation-capable. -/
theorem select_combined_family_witness :
    ∃ m, select_queue_families ⟨[⟨1, true⟩], [true]⟩ = some (m, m)
      ∧ m ∈ gfx_families ⟨[⟨1, true⟩], [true]⟩
      ∧ m ∈ presentation_families ⟨[⟨1, true⟩], [true]⟩
      ∧ ∀ i, i ∈ gfx_families ⟨[⟨1, true⟩], [true]⟩ →
          i ∈ presentation_families ⟨[⟨1, true⟩], [true]⟩ → m ≤ i :=
  select_combined_family ⟨[⟨1, true⟩], [true]⟩ ⟨0, by decide, by decide⟩

/-- C7: when the graphics-capable and presentation-capable index sets are
disjoint, the selector falls back to the smallest graphics index and the
smallest presentation index taken independently, disqualifies the device if
either set is empty, and on the concrete two-family device (family 0
graphics-only, family 1 presentation-only) yields the pair (0, 1). -/
theorem select_split_pair (d : PhysicalDevice)
    (hdisj : ∀ i ∈ gfx_families d, i ∉ presentation_families d) :
    ((gfx_families d ≠ [] ∧ presentation_families d ≠ []) →
      ∃ g p, select_queue_families d = some (g, p)
        ∧ g ∈ gfx_families d ∧ (∀ i ∈ gfx_families d, g ≤ i)
        ∧ p ∈ presentation_families d ∧ (∀ i ∈ presentation_families d, p ≤ i))
    ∧ (gfx_families d = [] → select_queue_families d = none)
    ∧ (presentation_families d = [] → select_queue_families d = none)
    ∧ select_queue_families ⟨[⟨1, true⟩, ⟨1, false⟩], [false, true]⟩ = some (0, 1) := by
  have hcomb : combined_families d = [] := combined_families_eq_nil d hdisj
  refine ⟨?_, ?_, ?_, by decide⟩
  · rintro ⟨hg, hp⟩
    cases hgl : gfx_families d with
    | nil => exact absurd hgl hg
    | cons g tg =>
      cases hpl : presentation_families d with
      | nil => exact absurd hpl hp
      | cons p tp =>
        refine ⟨g, p, ?_, List.mem_cons_self g tg, ?_, List.mem_cons_self p tp, ?_⟩
        · unfold select_queue_families
          rw [hcomb, hgl, hpl]
          rfl
        · have hs := gfx_families_pairwise d
          rw [hgl] at hs
          exact head_min_of_pairwise_lt hs
        · have hs := presentation_families_pairwise d
          rw [hpl] at hs
          exact head_min_of_pairwise_lt hs
  · intro hg
    unfold select_queue_families
    rw [hcomb, hg]
    cases (presentation_families d).head? <;> rfl
  · intro hp
    unfold select_queue_families
    rw [hcomb, hp]
    cases (gfx_families d).head? <;> rfl

/-- Closed witness for C7 at the concrete split device. -/
theorem select_split_pair_witness :
    ∃ g p, select_queue_families ⟨[⟨1, true⟩, ⟨1, false⟩], [false, true]⟩ = some (g, p)
      ∧ g ∈ gfx_families ⟨[⟨1, true⟩, ⟨1, false⟩], [false, true]⟩
      ∧ (∀ i ∈ gfx_families ⟨[⟨1, true⟩, ⟨1, false⟩], [false, true]⟩, g ≤ i)
      ∧ p ∈ presentation_families ⟨[⟨1, true⟩, ⟨1, false⟩], [false, true]⟩
      ∧ (∀ i ∈ presentation_families ⟨[⟨1, true⟩, ⟨1, false⟩], [false, true]⟩, p ≤ i) :=
  (select_split_pair ⟨[⟨1, true⟩, ⟨1, false⟩], [false, true]⟩ (by decide)).1
    ⟨by decide, by decide⟩

/-- C6 counterexample: equal (graphics, presentation) indices give sharing
mode `Exclusive`, but the create info carries the one-element de-duplicated
index list `[0]`, not an empty list as claimed. -/
theorem swapchain_sharing_counterexample :
    (swapchain_sharing 0 0).image_sharing_mode = SharingMode.Exclusive
    ∧ (swapchain_sharing 0 0).queue_family_indices = [0]
    ∧ (swapchain_sharing 0 0).queue_family_indices ≠ [] := by decide

/-- C6 (amended): a single de-duplicated index gives `Exclusive` with the
singleton index list (ignored by Vulkan for exclusive sharing); two distinct
indices give `Concurrent` with the full de-duplicated (sorted) list;
concretely (0, 1) gives `Concurrent` with list `[0, 1]`. -/
theorem swapchain_sharing_spec (g p : Nat) :
    (g = p → swapchain_sharing g p =
      { image_sharing_mode := SharingMode.Exclusive, queue_family_indices := [g] })
    ∧ (g ≠ p →
      (swapchain_sharing g p).image_sharing_mode = SharingMode.Concurrent
      ∧ (swapchain_sharing g p).queue_family_indices
          = if g < p then [g, p] else [p, g])
    ∧ swapchain_sharing 0 1 =
      { image_sharing_mode := SharingMode.Concurrent, queue_family_indices := [0, 1] } := by
  refine ⟨?_, ?_, by decide⟩
  · intro h
    subst h
    simp [swapchain_sharing, update_sharing_mode, dedup_queue_family_indices]
  · intro h
    unfold swapchain_sharing update_sharing_mode dedup_queue_family_indices
    rw [if_neg h]
    by_cases hlt : g < p
    · rw [if_pos hlt]
      exact ⟨rfl, rfl⟩
    · rw [if_neg hlt]
      exact ⟨rfl, rfl⟩

/-- Closed witness for C6's amended theorem. -/
theorem swapchain_sharing_spec_witness :
    swapchain_sharing 3 3 =
      { image_sharing_mode := SharingMode.Exclusive, queue_family_indices := [3] }
    ∧ (swapchain_sharing 2 1).image_sharing_mode = SharingMode.Concurrent
    ∧ (swapchain_sharing 2 1).queue_family_indices = if 2 < 1 then [2, 1] else [1, 2] :=
  ⟨(swapchain_sharing_spec 3 3).1 rfl,
   ((swapchain_sharing_spec 2 1).2.1 (by decide)).1,
   ((swapchain_sharing_spec 2 1).2.1 (by decide)).2⟩

/-- C8: `SwapChainSupportDetails::new` propagates the first failing query in
the order capabilities, formats, present modes, producing no partial
snapshot, and returns the complete snapshot only when all three succeed. -/
theorem surface_support_query_spec (qc : Except Nat SurfaceCapabilitiesKHR)
    (qf : Except Nat (List SurfaceFormatKHR)) (qm : Except Nat (List Nat)) :
    (∀ e, qc = .error e → surface_support_query qc qf qm = .error e)
    ∧ (∀ c e, qc = .ok c → qf = .error e → surface_support_query qc qf qm = .error e)
    ∧ (∀ c f e, qc = .ok c → qf = .ok f → qm = .error e →
        surface_support_query qc qf qm = .error e)
    ∧ (∀ c f m, qc = .ok c → qf = .ok f → qm = .ok m →
        surface_support_query qc qf qm = .ok ⟨c, f, m⟩) := by
  refine ⟨?_, ?_, ?_, ?_⟩
  · intro e h; subst h; rfl
  · intro c e h1 h2; subst h1; subst h2; rfl
  · intro c f e h1 h2 h3; subst h1; subst h2; subst h3; rfl
  · intro c f m h1 h2 h3; subst h1; subst h2; subst h3; rfl

/-- Closed witness for C8: a failing formats query is propagated, and three
successes give the complete snapshot. -/
theorem surface_support_query_witness :
    surface_support_query (.ok ⟨1, 0, ⟨0, 0⟩, ⟨0, 0⟩, ⟨0, 0⟩⟩) (.error 9) (.ok [2])
      = .error 9
    ∧ surface_support_query (.ok ⟨1, 0, ⟨0, 0⟩, ⟨0, 0⟩, ⟨0, 0⟩⟩)
        (.ok [PREFERRED_FORMAT]) (.ok [2])
      = .ok ⟨⟨1, 0, ⟨0, 0⟩, ⟨0, 0⟩, ⟨0, 0⟩⟩, [PREFERRED_FORMAT], [2]⟩ :=
  ⟨(surface_support_query_spec (.ok ⟨1, 0, ⟨0, 0⟩, ⟨0, 0⟩, ⟨0, 0⟩⟩) (.error 9)
      (.ok [2])).2.1 _ 9 rfl rfl,
   (surface_support_query_spec (.ok ⟨1, 0, ⟨0, 0⟩, ⟨0, 0⟩, ⟨0, 0⟩⟩)
      (.ok [PREFERRED_FORMAT]) (.ok [2])).2.2.2 _ _ _ rfl rfl rfl⟩

/-- C9 counterexample: a successful empty read is not rejected — it is
passed straight to shader-module creation with `code_size = 0`. -/
theorem shader_read_counterexample :
    shader_module_from_read (read_full_file (Except.ok ()) (Except.ok 0) (Except.ok []))
      = some { code_size := 0, code := [] } := rfl

/-- C9 (amended): the shader path checks only that the read succeeded
(`unwrap` panics on an error) and treats the bytes as opaque, handing them —
including an empty buffer — to shader-module creation with
`code_size = code.len()`; there is no non-emptiness check. -/
theorem shader_read_spec (o : Except Nat Unit) (md : Except Nat Nat)
    (r : Except Nat (List Nat)) :
    (∀ code, o = .ok () → r = .ok code →
      shader_module_from_read (read_full_file o md r)
        = some { code_size := code.length, code := code })
    ∧ (∀ e, read_full_file o md r = .error e →
      shader_module_from_read (read_full_file o md r) = none)
    ∧ shader_module_from_read (read_full_file (.ok ()) (.ok 0) (.ok []))
        = some { code_size := 0, code := [] } := by
  refine ⟨?_, ?_, rfl⟩
  · intro code ho hr
    subst ho; subst hr
    rfl
  · intro e he
    rw [he]
    rfl

/-- Closed witness for C9's amended theorem: a non-empty successful read is
passed through, and a failed open propagates as a panic. -/
theorem shader_read_spec_witness :
    shader_module_from_read (read_full_file (.ok ()) (.error 3) (.ok [7, 7]))
      = some { code_size := 2, code := [7, 7] }
    ∧ shader_module_from_read (read_full_file (.error 5) (.ok 0) (.ok [1])) = none :=
  ⟨(shader_read_spec (.ok ()) (.error 3) (.ok [7, 7])).1 [7, 7] rfl rfl,
   (shader_read_spec (.error 5) (.ok 0) (.ok [1])).2.1 5 rfl⟩

end VkPlayground
